import Mathlib

/-!
Verification of the CortexFlow state-estimation and intervention core.

Shallow embedding of two source components:
* `src/website/cortexmind-dashboard/src/lib/rollingAggregator.ts`
  (Rolling 10-minute aggregator: bounded FIFO window, averages,
  dominant metric, trend classification).
* `src/extensions/content/overlay.js`
  (graduated intervention dispatcher: task thresholds, per-channel
  hysteresis and cooldowns, global breakdown mode, red-band banner).

Machine numbers are modelled as rationals (the JS code only compares,
adds and divides small decimal constants, so ℚ is exact here).
-/

namespace CortexFlow

/-! ## Rolling aggregator (rollingAggregator.ts) -/

/-- Mirrors interface `TelemetryEntry` (rollingAggregator.ts lines 8-19). -/
structure TelemetryEntry where
  timestamp : ℚ
  risk : ℚ
  instability : ℚ
  drift : ℚ
  fatigue : ℚ
  conflict : ℚ
  ECN : ℚ
  DMN : ℚ
  Salience : ℚ
  Load : ℚ
deriving DecidableEq

/-- Zero telemetry entry, used as the out-of-range default for list
indexing (the indices used by the source are always in range). -/
def e0 : TelemetryEntry := ⟨0, 0, 0, 0, 0, 0, 0, 0, 0, 0⟩

/-- Mirrors `const MAX_ENTRIES = 120` (rollingAggregator.ts line 38). -/
def MAX_ENTRIES : Nat := 120

/-- Mirrors `RollingAggregator.push` (rollingAggregator.ts lines 46-51):
append the entry, then `shift()` (drop the oldest, at the front) if the
buffer length exceeds `MAX_ENTRIES`.  The buffer is a list with the
oldest entry first, newest last, as in the source. -/
def push (buf : List TelemetryEntry) (e : TelemetryEntry) : List TelemetryEntry :=
  let b := buf ++ [e]
  if MAX_ENTRIES < b.length then b.drop 1 else b

/-- Push a whole sequence of entries into an initially empty window. -/
def pushAll (es : List TelemetryEntry) : List TelemetryEntry :=
  es.foldl push []

/-- Mirrors interface `RollingAverages` (rollingAggregator.ts lines 21-29). -/
structure RollingAverages where
  avgRisk : ℚ
  avgInstability : ℚ
  avgDrift : ℚ
  avgFatigue : ℚ
  avgConflict : ℚ
  avgECN : ℚ
  avgDMN : ℚ
deriving DecidableEq

/-- Mirrors `type RiskTrend = "stable" | "rising" | "falling"`. -/
inductive RiskTrend where
  | stable
  | rising
  | falling
deriving DecidableEq

/-- Mirrors the `dominantMetric` result type, the four keys of
`TenMinSummary["dominantMetric"]`. -/
inductive MetricKey where
  | risk
  | instability
  | drift
  | fatigue
deriving DecidableEq

/-- Mirrors interface `TenMinSummary` (rollingAggregator.ts lines 32-37). -/
structure TenMinSummary where
  averages : RollingAverages
  dominantMetric : MetricKey
  riskTrend : RiskTrend
  entryCount : Nat
deriving DecidableEq

/-- Mirrors `RollingAggregator.computeAverages` (lines 69-90): the
denominator is `this.buffer.length || 1`, so an empty buffer divides
by 1, never by 0. -/
def computeAverages (buf : List TelemetryEntry) : RollingAverages :=
  let n : ℚ := if buf.length = 0 then 1 else (buf.length : ℚ)
  { avgRisk := (buf.map TelemetryEntry.risk).sum / n
    avgInstability := (buf.map TelemetryEntry.instability).sum / n
    avgDrift := (buf.map TelemetryEntry.drift).sum / n
    avgFatigue := (buf.map TelemetryEntry.fatigue).sum / n
    avgConflict := (buf.map TelemetryEntry.conflict).sum / n
    avgECN := (buf.map TelemetryEntry.ECN).sum / n
    avgDMN := (buf.map TelemetryEntry.DMN).sum / n }

/-- Mirrors `buffer.slice(-3)`: the last three entries (computeTrend, line 95). -/
def last3 (buf : List TelemetryEntry) : List TelemetryEntry :=
  buf.drop (buf.length - 3)

/-- Mirrors `buffer.slice(-6, -3)`: the three entries before the last three
(computeTrend, line 96). -/
def prev3 (buf : List TelemetryEntry) : List TelemetryEntry :=
  (buf.drop (buf.length - 6)).take 3

/-- Mean risk of the last three entries (computeTrend, line 97). -/
def avgLast3 (buf : List TelemetryEntry) : ℚ :=
  ((last3 buf).map TelemetryEntry.risk).sum / 3

/-- Mean risk of the preceding three entries (computeTrend, line 98). -/
def avgPrev3 (buf : List TelemetryEntry) : ℚ :=
  ((prev3 buf).map TelemetryEntry.risk).sum / 3

/-- Mirrors the `risingContinuously` conjunction of `computeTrend`
(lines 101-104): note the FIRST conjunct compares `last3[0]` with
`prev3[2]`, so the code in fact requires non-decrease across the last
FOUR raw risk values, not only across the last three. -/
def risingContinuously (buf : List TelemetryEntry) : Prop :=
  ((prev3 buf).getD 2 e0).risk ≤ ((last3 buf).getD 0 e0).risk ∧
  ((last3 buf).getD 0 e0).risk ≤ ((last3 buf).getD 1 e0).risk ∧
  ((last3 buf).getD 1 e0).risk ≤ ((last3 buf).getD 2 e0).risk

instance (buf : List TelemetryEntry) : Decidable (risingContinuously buf) := by
  unfold risingContinuously
  infer_instance

/-- Mirrors `RollingAggregator.computeTrend` (lines 93-109).  The fixed
epsilon 0.02 is 1/50. -/
def computeTrend (buf : List TelemetryEntry) : RiskTrend :=
  if buf.length < 6 then RiskTrend.stable
  else if risingContinuously buf ∧ avgPrev3 buf + 1/50 < avgLast3 buf then RiskTrend.rising
  else if avgLast3 buf < avgPrev3 buf - 1/50 then RiskTrend.falling
  else RiskTrend.stable

/-- Mirrors `RollingAggregator.dominantMetric` (lines 112-122).  The
source sorts the four candidates by descending value with
`Array.prototype.sort`, which is stable, and takes the head; the head
of a stable descending sort is the first candidate attaining the
maximum, computed here by a left scan keeping the current best under
strict improvement. -/
def firstMax (best : MetricKey × ℚ) : List (MetricKey × ℚ) → MetricKey
  | [] => best.1
  | c :: rest => if best.2 < c.2 then firstMax c rest else firstMax best rest

/-- The dominant metric: argmax among the four averages, ties broken by
the candidate order risk, instability, drift, fatigue. -/
def dominantMetric (avg : RollingAverages) : MetricKey :=
  firstMax (MetricKey.risk, avg.avgRisk)
    [(MetricKey.instability, avg.avgInstability),
     (MetricKey.drift, avg.avgDrift),
     (MetricKey.fatigue, avg.avgFatigue)]

/-- Mirrors `RollingAggregator.get10MinSummary` (lines 124-132). -/
def get10MinSummary (buf : List TelemetryEntry) : TenMinSummary :=
  let averages := computeAverages buf
  { averages := averages
    dominantMetric := dominantMetric averages
    riskTrend := computeTrend buf
    entryCount := buf.length }

/-- Build a telemetry entry whose risk is `r` and whose other fields are 0. -/
def mkRisk (r : ℚ) : TelemetryEntry := ⟨0, r, 0, 0, 0, 0, 0, 0, 0, 0⟩

/-! ## Graduated intervention dispatcher (overlay.js) -/

/-- The task types keyed in `TASK_THRESHOLDS` (overlay.js lines 3-10).
Unknown task strings fall back to `general` in the source
(`TASK_THRESHOLDS[_currentTask] || TASK_THRESHOLDS.general`), so the
five keys cover all behaviours. -/
inductive Task where
  | coding
  | writing
  | reading
  | video
  | general
deriving DecidableEq

/-- One threshold array `[level1_floor, level2_floor, level3_floor]`. -/
structure Triple where
  l1 : ℚ
  l2 : ℚ
  l3 : ℚ
deriving DecidableEq

/-- The three signal channels of the dispatcher. -/
inductive Channel where
  | instab
  | drift
  | fatigue
deriving DecidableEq

/-- Per-task thresholds for the three channels. -/
structure TaskThresholds where
  instab : Triple
  drift : Triple
  fatigue : Triple
deriving DecidableEq

/-- Mirrors `TASK_THRESHOLDS` (overlay.js lines 3-10); the decimal
constants are written as exact rationals (0.45 = 9/20, 0.60 = 3/5,
0.70 = 7/10, 0.55 = 11/20, 0.80 = 4/5, 0.75 = 3/4, 0.85 = 17/20,
0.50 = 1/2, 0.65 = 13/20, 0.40 = 2/5). -/
def TASK_THRESHOLDS : Task → TaskThresholds
  | Task.coding  => ⟨⟨9/20, 3/5, 7/10⟩, ⟨11/20, 7/10, 4/5⟩, ⟨3/5, 3/4, 17/20⟩⟩
  | Task.writing => ⟨⟨1/2, 13/20, 3/4⟩, ⟨1/2, 13/20, 3/4⟩, ⟨3/5, 3/4, 17/20⟩⟩
  | Task.reading => ⟨⟨1/2, 13/20, 3/4⟩, ⟨9/20, 3/5, 7/10⟩, ⟨3/5, 3/4, 17/20⟩⟩
  | Task.video   => ⟨⟨3/5, 3/4, 17/20⟩, ⟨2/5, 11/20, 13/20⟩, ⟨3/5, 3/4, 17/20⟩⟩
  | Task.general => ⟨⟨1/2, 13/20, 3/4⟩, ⟨1/2, 13/20, 3/4⟩, ⟨3/5, 3/4, 17/20⟩⟩

/-- Select one channel's triple from a task's thresholds. -/
def chanThr (t : TaskThresholds) : Channel → Triple
  | Channel.instab => t.instab
  | Channel.drift => t.drift
  | Channel.fatigue => t.fatigue

/-- Mirrors `TYPE_COOLDOWNS` (overlay.js line 16): instab 3 min,
drift 4 min, fatigue 8 min, in milliseconds. -/
def TYPE_COOLDOWNS : Channel → ℚ
  | Channel.instab => 3 * 60000
  | Channel.drift => 4 * 60000
  | Channel.fatigue => 8 * 60000

/-- Mirrors `getSignalLevel` (overlay.js lines 144-149). -/
def getSignalLevel (val : ℚ) (t : Triple) : Nat :=
  if t.l3 ≤ val then 3
  else if t.l2 ≤ val then 2
  else if t.l1 ≤ val then 1
  else 0

/-- Mirrors the red/yellow/green risk bands of `handleInferenceResult`. -/
inductive RiskLevel where
  | green
  | yellow
  | red
deriving DecidableEq

/-- Mirrors `RED_THRESHOLDS` with its `|| 0.65` default
(overlay.js lines 231-232): coding 0.50, writing 0.60, reading 0.55,
video 0.65, general (and any unknown task) 0.65. -/
def redThreshold : Task → ℚ
  | Task.coding => 1/2
  | Task.writing => 3/5
  | Task.reading => 11/20
  | Task.video => 13/20
  | Task.general => 13/20

/-- The per-interval inference record fields the dispatcher reads.
Missing or null numeric fields are `none`; the source reads each with
`|| 0`, modelled by `Option.getD 0`.  `error` models the `data.error`
early-out check. -/
structure InferenceData where
  instability : Option ℚ
  drift : Option ℚ
  fatigue : Option ℚ
  risk : Option ℚ
  breakdown_imminent : Bool
  error : Bool
deriving DecidableEq

/-- The module-level mutable dispatcher state of overlay.js:
`_sigCount`, `_cooldownUntil`, `_inBreakdown`, `_recoveryCount`,
`previousRiskLevel`, `currentRiskLevel`, `isBreakdownActive`,
`breakdownCooldownUntil` and `consecutiveHighRisk`. -/
structure OverlayState where
  sigInstab : Nat
  sigDrift : Nat
  sigFatigue : Nat
  cdInstab : ℚ
  cdDrift : ℚ
  cdFatigue : ℚ
  inBreakdown : Bool
  recoveryCount : Nat
  previousRiskLevel : RiskLevel
  currentRiskLevel : RiskLevel
  isBreakdownActive : Bool
  breakdownCooldownUntil : ℚ
  consecutiveHighRisk : Nat
deriving DecidableEq

/-- The initial values of the module-level variables
(overlay.js lines 13-31). -/
def initialState : OverlayState :=
  { sigInstab := 0, sigDrift := 0, sigFatigue := 0
    cdInstab := 0, cdDrift := 0, cdFatigue := 0
    inBreakdown := false, recoveryCount := 0
    previousRiskLevel := RiskLevel.green
    currentRiskLevel := RiskLevel.green
    isBreakdownActive := false
    breakdownCooldownUntil := 0
    consecutiveHighRisk := 0 }

/-- Observable effects of one dispatcher step: the full-screen
breakdown banner (`showBreakdownBanner`), leaving global breakdown
mode, and a channel intervention at a level (1 = the passive orb hint,
2 and 3 = the message-style interventions). -/
inductive Event where
  | banner
  | exitRecovery
  | fired (ch : Channel) (lv : Nat)
deriving DecidableEq

/-- The band computed by `handleInferenceResult` (overlay.js lines
234-240): red iff `risk >= redAt || breakdown_imminent`, else yellow
iff `risk >= 0.45`, else green. -/
def riskLevelOf (task : Task) (risk : ℚ) (bi : Bool) : RiskLevel :=
  if redThreshold task ≤ risk ∨ bi = true then RiskLevel.red
  else if 9/20 ≤ risk then RiskLevel.yellow
  else RiskLevel.green

/-- Mirrors `handleInferenceResult` (overlay.js lines 224-258):
updates the band state and `consecutiveHighRisk`, and fires the
breakdown banner (returned boolean) when the band just entered red
from a non-red band, the banner cooldown has expired
(`Date.now() > breakdownCooldownUntil`) and no banner is active.
`showBreakdownBanner` sets `isBreakdownActive` (line 261). -/
def handleInferenceResult (task : Task) (d : InferenceData) (now : ℚ)
    (st : OverlayState) : OverlayState × Bool :=
  let risk := d.risk.getD 0
  let curr := riskLevelOf task risk d.breakdown_imminent
  let fire : Bool :=
    if curr = RiskLevel.red ∧ st.currentRiskLevel ≠ RiskLevel.red ∧
        st.breakdownCooldownUntil < now ∧ st.isBreakdownActive = false
    then true else false
  ({ st with
      previousRiskLevel := st.currentRiskLevel
      currentRiskLevel := curr
      consecutiveHighRisk :=
        if curr = RiskLevel.red then st.consecutiveHighRisk + 1 else 0
      isBreakdownActive := st.isBreakdownActive || fire }, fire)

/-- Mirrors `dismissBanner` (overlay.js lines 333-346), also run on the
15-second auto-timeout: clears the active flag and sets a short
1-second banner cooldown. -/
def dismissBanner (now : ℚ) (st : OverlayState) : OverlayState :=
  { st with isBreakdownActive := false, breakdownCooldownUntil := now + 1000 }

/-- Mirrors the hysteresis counter update (overlay.js lines 385-387):
increment when the raw value reaches the level-1 floor, otherwise
`Math.max(0, n - 1)` (which is truncated subtraction on `Nat`). -/
def bumpSig (cond : Prop) [Decidable cond] (n : Nat) : Nat :=
  if cond then n + 1 else n - 1

/-- Result of one channel's escalation block. -/
structure ChanOut where
  cd : ℚ
  setBreakdown : Bool
  fired : Option Nat
deriving DecidableEq

/-- Mirrors one channel's `if/else if` escalation ladder (overlay.js
lines 390-404 and the two analogous blocks): level 1 is the passive
orb hint; level 2 fires when the cooldown expired; level 3 fires only
when the hysteresis counter (already updated this interval) has
reached 2 and the cooldown expired, and then also enters global
breakdown mode. -/
def channelFire (lv sig : Nat) (cd now cdLen : ℚ) : ChanOut :=
  if lv = 1 then ⟨cd, false, some 1⟩
  else if lv = 2 ∧ cd < now then ⟨now + cdLen, false, some 2⟩
  else if lv = 3 ∧ 2 ≤ sig ∧ cd < now then ⟨now + cdLen, true, some 3⟩
  else ⟨cd, false, none⟩

/-- The breakdown re-entry gate (overlay.js lines 368-382): while in
global breakdown mode, channel escalation is skipped entirely; two
consecutive intervals with risk below 0.35 are required to leave,
and any interval at or above 0.35 resets the recovery counter. -/
def breakdownPhase (risk : ℚ) (st : OverlayState) : OverlayState × List Event :=
  if risk < 7/20 then
    if 2 ≤ st.recoveryCount + 1 then
      ({ st with inBreakdown := false, recoveryCount := 0 }, [Event.exitRecovery])
    else
      ({ st with recoveryCount := st.recoveryCount + 1 }, [])
  else
    ({ st with recoveryCount := 0 }, [])

/-- The three channel blocks (overlay.js lines 385-437): the counters
are all updated first, then each channel's ladder runs on the updated
counter; a level-3 firing sets `_inBreakdown` for the NEXT interval
(the gate at the top already passed this interval). -/
def channelsPhase (thr : TaskThresholds) (i dr f now : ℚ)
    (st : OverlayState) : OverlayState × List Event :=
  let si := bumpSig (thr.instab.l1 ≤ i) st.sigInstab
  let sd := bumpSig (thr.drift.l1 ≤ dr) st.sigDrift
  let sf := bumpSig (thr.fatigue.l1 ≤ f) st.sigFatigue
  let oi := channelFire (getSignalLevel i thr.instab) si st.cdInstab now
    (TYPE_COOLDOWNS Channel.instab)
  let od := channelFire (getSignalLevel dr thr.drift) sd st.cdDrift now
    (TYPE_COOLDOWNS Channel.drift)
  let og := channelFire (getSignalLevel f thr.fatigue) sf st.cdFatigue now
    (TYPE_COOLDOWNS Channel.fatigue)
  ({ st with
      sigInstab := si, sigDrift := sd, sigFatigue := sf
      cdInstab := oi.cd, cdDrift := od.cd, cdFatigue := og.cd
      inBreakdown := oi.setBreakdown || od.setBreakdown || og.setBreakdown },
   (oi.fired.map (Event.fired Channel.instab)).toList ++
   (od.fired.map (Event.fired Channel.drift)).toList ++
   (og.fired.map (Event.fired Channel.fatigue)).toList)

/-- Mirrors `runGraduatedInterventions` (overlay.js lines 349-438):
early-out on a missing/errored record, band tracking via
`handleInferenceResult`, the breakdown re-entry gate, then the three
channel blocks.  The task type is the cached `_currentTask`. -/
def runStep (task : Task) (d : InferenceData) (now : ℚ)
    (st : OverlayState) : OverlayState × List Event :=
  if d.error then (st, [])
  else
    let hir := handleInferenceResult task d now st
    let evs0 : List Event := if hir.2 then [Event.banner] else []
    if hir.1.inBreakdown then
      let bp := breakdownPhase (d.risk.getD 0) hir.1
      (bp.1, evs0 ++ bp.2)
    else
      let cp := channelsPhase (TASK_THRESHOLDS task) (d.instability.getD 0)
        (d.drift.getD 0) (d.fatigue.getD 0) now hir.1
      (cp.1, evs0 ++ cp.2)

/-- Run the dispatcher over a list of (record, timestamp) intervals,
collecting all events in order. -/
def runAll (task : Task) : List (InferenceData × ℚ) → OverlayState →
    OverlayState × List Event
  | [], st => (st, [])
  | (d, t) :: rest, st =>
    let s1 := runStep task d t st
    let s2 := runAll task rest s1.1
    (s2.1, s1.2 ++ s2.2)

/-- Six entries whose risks rise monotonically with a large mean gap. -/
def trendUpBuf : List TelemetryEntry :=
  [mkRisk 0, mkRisk 0, mkRisk 0, mkRisk (1/2), mkRisk (3/5), mkRisk (7/10)]

/-- Window with risks 0, 0, 0.5, 0.4, 0.45, 0.5: the last three raw
values are monotonically non-decreasing and the recent mean (0.45)
exceeds the prior mean (1/6) by far more than 0.02. -/
def trendCxBuf : List TelemetryEntry :=
  [mkRisk 0, mkRisk 0, mkRisk (1/2), mkRisk (2/5), mkRisk (9/20), mkRisk (1/2)]

/-- Fill every missing numeric field of a record with an explicit 0. -/
def zeroFill (d : InferenceData) : InferenceData :=
  { d with
      instability := some (d.instability.getD 0)
      drift := some (d.drift.getD 0)
      fatigue := some (d.fatigue.getD 0)
      risk := some (d.risk.getD 0) }

/-- A record with every signal low. -/
def dLow : InferenceData := ⟨some 0, some 0, some 0, some 0, false, false⟩

/-- A record with risk 0.9 (above every threshold in play). -/
def dHot : InferenceData := ⟨some 0, some 0, some 0, some (9/10), false, false⟩

/-- A breakdown-mode state (fresh entry, recovery counter 0). -/
def stBreak : OverlayState := { initialState with inBreakdown := true }

/-- The channel-level interventions among a list of events. -/
def firedEvents (evs : List Event) : List Event :=
  evs.filter fun e =>
    match e with
    | Event.fired _ _ => true
    | _ => false

/-- A record with every signal spiking. -/
def dAll : InferenceData := ⟨some (9/10), some (9/10), some (9/10), some (9/10), false, false⟩

/-- A record with instability 0.9 (above every instab level-3 floor). -/
def dSpike : InferenceData := ⟨some (9/10), some 0, some 0, some 0, false, false⟩

/-- Select a channel's raw value from a record (with the `|| 0`
default applied by the dispatcher). -/
def chanVal (d : InferenceData) : Channel → ℚ
  | Channel.instab => d.instability.getD 0
  | Channel.drift => d.drift.getD 0
  | Channel.fatigue => d.fatigue.getD 0

/-- Select a channel's hysteresis counter from the state. -/
def chanSig (st : OverlayState) : Channel → Nat
  | Channel.instab => st.sigInstab
  | Channel.drift => st.sigDrift
  | Channel.fatigue => st.sigFatigue

/-- Select a channel's cooldown-expiry timestamp from the state. -/
def chanCd (st : OverlayState) : Channel → ℚ
  | Channel.instab => st.cdInstab
  | Channel.drift => st.cdDrift
  | Channel.fatigue => st.cdFatigue

/-- Select one of the three raw values passed to `channelsPhase`. -/
def chanPick (ch : Channel) (i dr f : ℚ) : ℚ :=
  match ch with
  | Channel.instab => i
  | Channel.drift => dr
  | Channel.fatigue => f

/-! ## Helper lemmas -/

/-- Folding `push` over a list starting from a window that respects the
capacity drops exactly the overflow from the front: the window is
always the suffix of everything pushed so far. -/
lemma foldl_push_eq (es : List TelemetryEntry) :
    ∀ buf : List TelemetryEntry, buf.length ≤ MAX_ENTRIES →
      List.foldl push buf es = (buf ++ es).drop (buf.length + es.length - MAX_ENTRIES) := by
  induction es with
  | nil =>
    intro buf h
    simp [Nat.sub_eq_zero_of_le h]
  | cons e tl ih =>
    intro buf h
    rw [List.foldl_cons]
    by_cases hlen : buf.length = MAX_ENTRIES
    · have hp : push buf e = (buf ++ [e]).drop 1 := by
        unfold push
        rw [if_pos (by simp [hlen])]
      have hlen1 : ((buf ++ [e]).drop 1).length = MAX_ENTRIES := by
        rw [List.length_drop]
        simp [hlen]
      rw [hp, ih _ (le_of_eq hlen1), hlen1]
      have h2 : ((buf ++ [e]) ++ tl).drop 1 = (buf ++ [e]).drop 1 ++ tl :=
        List.drop_append_of_le_length (by simp)
      rw [← h2, List.drop_drop]
      have h3 : buf ++ [e] ++ tl = buf ++ e :: tl := by simp
      have h4 : 1 + (MAX_ENTRIES + tl.length - MAX_ENTRIES) =
          buf.length + (e :: tl).length - MAX_ENTRIES := by
        simp only [List.length_cons, hlen]
        omega
      rw [h3, h4]
    · have hlt : buf.length < MAX_ENTRIES := lt_of_le_of_ne h hlen
      have hp : push buf e = buf ++ [e] := by
        unfold push
        rw [if_neg (by simp; omega)]
      rw [hp, ih _ (by simp; omega)]
      have h3 : buf ++ [e] ++ tl = buf ++ e :: tl := by simp
      have h4 : (buf ++ [e]).length + tl.length - MAX_ENTRIES =
          buf.length + (e :: tl).length - MAX_ENTRIES := by
        simp only [List.length_append, List.length_cons, List.length_nil]
        omega
      rw [h3, h4]

/-- C6: For every sequence of pushes into the Rolling Aggregator the
window holds at most 120 entries, and the window is exactly the suffix
of the most recent 120 entries pushed (so pushing capacity+1 entries
keeps the latest 120, evicting only the oldest on each overflow —
FIFO). -/
theorem window_fifo_bound (es : List TelemetryEntry) :
    (pushAll es).length ≤ MAX_ENTRIES ∧
    pushAll es = es.drop (es.length - MAX_ENTRIES) := by
  have h := foldl_push_eq es [] (by simp)
  simp at h
  refine ⟨?_, h⟩
  rw [pushAll] at *
  rw [h, List.length_drop]
  omega

/-- C7: The summary of an empty rolling window is fully defined — the
divisor is `length || 1 = 1`, so every average is 0 (no division by
zero, no NaN); the dominant metric is the first key `risk`, the trend
is `stable` and the entry count is 0. -/
theorem summary_empty_window :
    get10MinSummary [] = ⟨⟨0, 0, 0, 0, 0, 0, 0⟩, MetricKey.risk, RiskTrend.stable, 0⟩ := by
  norm_num [get10MinSummary, computeAverages, computeTrend, dominantMetric, firstMax]

/-- C1 (amended): the trend is `rising` exactly when the window has at
least 6 entries, the risk values are monotonically non-decreasing
across the last FOUR raw values — i.e. across the last 3 AND from the
last of the preceding 3 into the first of the last 3, which is the
extra first conjunct of the source's `risingContinuously` — and the
mean of the last 3 exceeds the mean of the preceding 3 by more than
0.02; `falling` exactly when the window has at least 6 entries and the
recent mean is below the prior mean by more than 0.02 (no monotonicity
requirement); with fewer than 6 entries the trend is always `stable`. -/
theorem trend_classification (b : List TelemetryEntry) :
    (computeTrend b = RiskTrend.rising ↔
      6 ≤ b.length ∧ risingContinuously b ∧ avgPrev3 b + 1/50 < avgLast3 b) ∧
    (computeTrend b = RiskTrend.falling ↔
      6 ≤ b.length ∧ avgLast3 b < avgPrev3 b - 1/50) ∧
    (b.length < 6 → computeTrend b = RiskTrend.stable) := by
  unfold computeTrend
  split_ifs with h1 h2 h3
  · refine ⟨⟨fun hh => absurd hh (by simp), ?_⟩, ⟨fun hh => absurd hh (by simp), ?_⟩,
      fun _ => rfl⟩
    · rintro ⟨hl, -⟩
      omega
    · rintro ⟨hl, -⟩
      omega
  · refine ⟨⟨fun _ => ⟨by omega, h2.1, h2.2⟩, fun _ => rfl⟩,
      ⟨fun hh => absurd hh (by simp), ?_⟩, fun hlt => absurd hlt h1⟩
    rintro ⟨-, hf⟩
    exfalso
    linarith [h2.2]
  · refine ⟨⟨fun hh => absurd hh (by simp), ?_⟩,
      ⟨fun _ => ⟨by omega, h3⟩, fun _ => rfl⟩, fun hlt => absurd hlt h1⟩
    rintro ⟨-, hr, hg⟩
    exact absurd ⟨hr, hg⟩ h2
  · refine ⟨⟨fun hh => absurd hh (by simp), ?_⟩,
      ⟨fun hh => absurd hh (by simp), fun hx => absurd hx.2 h3⟩, fun _ => rfl⟩
    rintro ⟨-, hr, hg⟩
    exact absurd ⟨hr, hg⟩ h2

/-- Witness for C1 at a concrete rising window. -/
theorem trend_classification_witness :
    computeTrend trendUpBuf = RiskTrend.rising :=
  (trend_classification trendUpBuf).1.mpr
    ⟨by norm_num [trendUpBuf],
     by norm_num [risingContinuously, last3, prev3, trendUpBuf, mkRisk, List.getD],
     by norm_num [avgLast3, avgPrev3, last3, prev3, trendUpBuf, mkRisk]⟩

/-- C1 counterexample: on `trendCxBuf` the last three raw risk values
are monotonically non-decreasing and the mean of the last 3 exceeds
the mean of the preceding 3 by more than 0.02, yet the computed trend
is `stable`, not `rising`: the source's `risingContinuously` also
requires `last3[0] >= prev3[2]` (0.4 >= 0.5 fails here), so the
claim's "rising exactly when the last 3 are non-decreasing and the
mean gap exceeds 0.02" is false. -/
theorem trend_rising_counterexample :
    6 ≤ trendCxBuf.length ∧
    ((trendCxBuf.getD 3 e0).risk ≤ (trendCxBuf.getD 4 e0).risk ∧
     (trendCxBuf.getD 4 e0).risk ≤ (trendCxBuf.getD 5 e0).risk) ∧
    avgPrev3 trendCxBuf + 1/50 < avgLast3 trendCxBuf ∧
    computeTrend trendCxBuf = RiskTrend.stable := by
  refine ⟨by norm_num [trendCxBuf], ⟨?_, ?_⟩, ?_, ?_⟩ <;>
    norm_num [trendCxBuf, mkRisk, avgLast3, avgPrev3, last3, prev3, computeTrend,
      risingContinuously, List.getD]

/-! ## Dispatcher helper lemmas -/

/-- Each task's three floors are strictly ascending in every channel. -/
lemma floors_ascending (t : Task) (c : Channel) :
    (chanThr (TASK_THRESHOLDS t) c).l1 < (chanThr (TASK_THRESHOLDS t) c).l2 ∧
    (chanThr (TASK_THRESHOLDS t) c).l2 < (chanThr (TASK_THRESHOLDS t) c).l3 := by
  cases t <;> cases c <;> constructor <;> norm_num [TASK_THRESHOLDS, chanThr]

@[simp]
lemma hir_inBreakdown (task : Task) (d : InferenceData) (now : ℚ) (st : OverlayState) :
    (handleInferenceResult task d now st).1.inBreakdown = st.inBreakdown := rfl

@[simp]
lemma hir_recoveryCount (task : Task) (d : InferenceData) (now : ℚ) (st : OverlayState) :
    (handleInferenceResult task d now st).1.recoveryCount = st.recoveryCount := rfl

@[simp]
lemma hir_sigInstab (task : Task) (d : InferenceData) (now : ℚ) (st : OverlayState) :
    (handleInferenceResult task d now st).1.sigInstab = st.sigInstab := rfl

@[simp]
lemma hir_sigDrift (task : Task) (d : InferenceData) (now : ℚ) (st : OverlayState) :
    (handleInferenceResult task d now st).1.sigDrift = st.sigDrift := rfl

@[simp]
lemma hir_sigFatigue (task : Task) (d : InferenceData) (now : ℚ) (st : OverlayState) :
    (handleInferenceResult task d now st).1.sigFatigue = st.sigFatigue := rfl

@[simp]
lemma hir_cdInstab (task : Task) (d : InferenceData) (now : ℚ) (st : OverlayState) :
    (handleInferenceResult task d now st).1.cdInstab = st.cdInstab := rfl

@[simp]
lemma hir_cdDrift (task : Task) (d : InferenceData) (now : ℚ) (st : OverlayState) :
    (handleInferenceResult task d now st).1.cdDrift = st.cdDrift := rfl

@[simp]
lemma hir_cdFatigue (task : Task) (d : InferenceData) (now : ℚ) (st : OverlayState) :
    (handleInferenceResult task d now st).1.cdFatigue = st.cdFatigue := rfl

@[simp]
lemma hir_currentRiskLevel (task : Task) (d : InferenceData) (now : ℚ) (st : OverlayState) :
    (handleInferenceResult task d now st).1.currentRiskLevel =
      riskLevelOf task (d.risk.getD 0) d.breakdown_imminent := rfl

/-- The band is red exactly when the risk reaches the task's red
threshold or the breakdown flag is set. -/
lemma riskLevelOf_eq_red (task : Task) (risk : ℚ) (bi : Bool) :
    riskLevelOf task risk bi = RiskLevel.red ↔ (redThreshold task ≤ risk ∨ bi = true) := by
  unfold riskLevelOf
  split_ifs with h1 h2 <;> simp_all

/-- The banner fires exactly when the band just turned red from
non-red, the banner cooldown has expired and no banner is active. -/
lemma hir_fire_iff (task : Task) (d : InferenceData) (now : ℚ) (st : OverlayState) :
    (handleInferenceResult task d now st).2 = true ↔
      (riskLevelOf task (d.risk.getD 0) d.breakdown_imminent = RiskLevel.red ∧
       st.currentRiskLevel ≠ RiskLevel.red ∧ st.breakdownCooldownUntil < now ∧
       st.isBreakdownActive = false) := by
  show (if (riskLevelOf task (d.risk.getD 0) d.breakdown_imminent = RiskLevel.red ∧
      st.currentRiskLevel ≠ RiskLevel.red ∧ st.breakdownCooldownUntil < now ∧
      st.isBreakdownActive = false) then true else false) = true ↔ _
  split_ifs with h <;> simp [h]

lemma getSignalLevel_lt_l1 (v : ℚ) (tr : Triple) (h : v < tr.l1)
    (h12 : tr.l1 < tr.l2) (h23 : tr.l2 < tr.l3) : getSignalLevel v tr = 0 := by
  unfold getSignalLevel
  rw [if_neg (by linarith), if_neg (by linarith), if_neg (by linarith)]

lemma getSignalLevel_ge_l3 (v : ℚ) (tr : Triple) (h : tr.l3 ≤ v) :
    getSignalLevel v tr = 3 := by
  unfold getSignalLevel
  rw [if_pos h]

/-- With a hysteresis counter below 2, no channel ladder ever fires
level 3 or enters breakdown mode. -/
lemma channelFire_no3 (lv sig : Nat) (cd now len : ℚ) (h : sig < 2) :
    (channelFire lv sig cd now len).fired ≠ some 3 ∧
    (channelFire lv sig cd now len).setBreakdown = false := by
  unfold channelFire
  split_ifs <;> simp_all <;> omega

lemma channelFire_fires3 (sig : Nat) (cd now len : ℚ) (h2 : 2 ≤ sig) (hc : cd < now) :
    channelFire 3 sig cd now len = ⟨now + len, true, some 3⟩ := by
  unfold channelFire
  rw [if_neg (by simp), if_neg (by simp), if_pos ⟨rfl, h2, hc⟩]

lemma channelFire_lv0 (sig : Nat) (cd now len : ℚ) :
    channelFire 0 sig cd now len = ⟨cd, false, none⟩ := by
  unfold channelFire
  rw [if_neg (by simp), if_neg (by simp), if_neg (by simp)]

/-! ## Claims about the dispatcher configuration -/

/-- C8 (amended): for each channel and each of the five task types the
floor triple is strictly ascending (level-1 < level-2 < level-3).  The
claim's further assertion that the per-channel triples are distinct
across task types is false — see `fatigue_floors_not_distinct`. -/
theorem thresholds_strictly_ascending :
    ∀ (t : Task) (c : Channel),
      (chanThr (TASK_THRESHOLDS t) c).l1 < (chanThr (TASK_THRESHOLDS t) c).l2 ∧
      (chanThr (TASK_THRESHOLDS t) c).l2 < (chanThr (TASK_THRESHOLDS t) c).l3 :=
  floors_ascending

/-- C8 counterexample: two different task types (coding and writing)
share the very same fatigue floor triple — in fact all five tasks use
fatigue floors [0.60, 0.75, 0.85], and writing and general share all
three triples — so the per-channel floor triples are NOT distinct
across task types. -/
theorem fatigue_floors_not_distinct :
    (TASK_THRESHOLDS Task.coding).fatigue = (TASK_THRESHOLDS Task.writing).fatigue ∧
    Task.coding ≠ Task.writing := by
  exact ⟨rfl, by simp⟩

/-- C9: the dispatcher treats a missing/null instability, drift,
fatigue or risk field exactly as the value 0: a step on any record is
indistinguishable from a step on the record with every missing field
replaced by an explicit 0.  The embedding is a total function, so
processing never throws and continues on every interval. -/
theorem missing_fields_default_zero (task : Task) (d : InferenceData) (now : ℚ)
    (st : OverlayState) :
    runStep task d now st = runStep task (zeroFill d) now st := rfl

/-- C10: the band classifier marks an interval red exactly when the
risk (defaulted to 0) is at or above the task's red threshold — coding
0.50, writing 0.60, reading 0.55, video 0.65, general 0.65 — OR the
record's breakdown_imminent flag is set; a breakdown_imminent record
with risk 0 is classified red and can trigger the breakdown banner. -/
theorem red_band_classifier :
    (∀ (task : Task) (d : InferenceData) (now : ℚ) (st : OverlayState),
      (handleInferenceResult task d now st).1.currentRiskLevel = RiskLevel.red ↔
        (redThreshold task ≤ d.risk.getD 0 ∨ d.breakdown_imminent = true)) ∧
    redThreshold Task.coding = 1/2 ∧
    redThreshold Task.writing = 3/5 ∧
    redThreshold Task.reading = 11/20 ∧
    redThreshold Task.video = 13/20 ∧
    redThreshold Task.general = 13/20 ∧
    Event.banner ∈ (runStep Task.general ⟨none, none, none, some 0, true, false⟩ 1 initialState).2 := by
  refine ⟨?_, rfl, rfl, rfl, rfl, rfl, ?_⟩
  · intro task d now st
    rw [hir_currentRiskLevel]
    exact riskLevelOf_eq_red task _ _
  · norm_num [runStep, handleInferenceResult, riskLevelOf, redThreshold, initialState,
      channelsPhase, channelFire, getSignalLevel, bumpSig, TASK_THRESHOLDS, TYPE_COOLDOWNS]
    decide

/-! ## Breakdown-mode recovery -/

/-- A low-risk interval seen in breakdown mode with recovery counter 0
stays in breakdown mode with the counter at 1. -/
lemma step_bd_low_stay (task : Task) (d : InferenceData) (now : ℚ) (st : OverlayState)
    (he : d.error = false) (hb : st.inBreakdown = true) (hrc : st.recoveryCount = 0)
    (hr : d.risk.getD 0 < 7/20) :
    (runStep task d now st).1.inBreakdown = true ∧
    (runStep task d now st).1.recoveryCount = 1 := by
  simp [runStep, breakdownPhase, he, hb, hrc, hr]

/-- Any interval at or above the 0.35 threshold seen in breakdown mode
resets the recovery counter to 0 and stays in breakdown mode. -/
lemma step_bd_high (task : Task) (d : InferenceData) (now : ℚ) (st : OverlayState)
    (he : d.error = false) (hb : st.inBreakdown = true) (hr : 7/20 ≤ d.risk.getD 0) :
    (runStep task d now st).1.inBreakdown = true ∧
    (runStep task d now st).1.recoveryCount = 0 := by
  simp [runStep, breakdownPhase, he, hb, not_lt.mpr hr]

/-- A low-risk interval seen in breakdown mode with recovery counter 1
exits breakdown mode and resets the counter. -/
lemma step_bd_low_exit (task : Task) (d : InferenceData) (now : ℚ) (st : OverlayState)
    (he : d.error = false) (hb : st.inBreakdown = true) (hrc : st.recoveryCount = 1)
    (hr : d.risk.getD 0 < 7/20) :
    (runStep task d now st).1.inBreakdown = false ∧
    (runStep task d now st).1.recoveryCount = 0 := by
  simp [runStep, breakdownPhase, he, hb, hrc, hr]

/-- C3: from a freshly entered breakdown state (recovery counter 0),
one low-risk interval (risk < 0.35) followed by one interval at or
above 0.35 does NOT exit breakdown mode and resets the recovery
counter to 0; two consecutive low-risk intervals DO exit breakdown
mode; and any single interval at or above the threshold resets the
counter to 0 while staying in breakdown mode. -/
theorem breakdown_recovery (task : Task) (d1 d2 : InferenceData) (t1 t2 : ℚ)
    (st : OverlayState) (hb : st.inBreakdown = true) (hrc : st.recoveryCount = 0)
    (he1 : d1.error = false) (he2 : d2.error = false) :
    (d1.risk.getD 0 < 7/20 → 7/20 ≤ d2.risk.getD 0 →
      (runStep task d2 t2 (runStep task d1 t1 st).1).1.inBreakdown = true ∧
      (runStep task d2 t2 (runStep task d1 t1 st).1).1.recoveryCount = 0) ∧
    (d1.risk.getD 0 < 7/20 → d2.risk.getD 0 < 7/20 →
      (runStep task d2 t2 (runStep task d1 t1 st).1).1.inBreakdown = false) ∧
    (7/20 ≤ d1.risk.getD 0 →
      (runStep task d1 t1 st).1.inBreakdown = true ∧
      (runStep task d1 t1 st).1.recoveryCount = 0) := by
  refine ⟨?_, ?_, ?_⟩
  · intro hr1 hr2
    have h1 := step_bd_low_stay task d1 t1 st he1 hb hrc hr1
    exact step_bd_high task d2 t2 _ he2 h1.1 hr2
  · intro hr1 hr2
    have h1 := step_bd_low_stay task d1 t1 st he1 hb hrc hr1
    exact (step_bd_low_exit task d2 t2 _ he2 h1.1 h1.2 hr2).1
  · intro hr1
    exact step_bd_high task d1 t1 st he1 hb hr1

/-- Witness for C3: concrete low/high and low/low breakdown traces. -/
theorem breakdown_recovery_witness :
    ((runStep Task.general dHot 2 (runStep Task.general dLow 1 stBreak).1).1.inBreakdown = true ∧
     (runStep Task.general dHot 2 (runStep Task.general dLow 1 stBreak).1).1.recoveryCount = 0) ∧
    (runStep Task.general dLow 2 (runStep Task.general dLow 1 stBreak).1).1.inBreakdown = false := by
  have h := breakdown_recovery Task.general dLow dHot 1 2 stBreak rfl rfl rfl rfl
  have h' := breakdown_recovery Task.general dLow dLow 1 2 stBreak rfl rfl rfl rfl
  exact ⟨h.1 (by norm_num [dLow]) (by norm_num [dHot]),
    h'.2.1 (by norm_num [dLow]) (by norm_num [dLow])⟩

/-! ## Breakdown mode suppresses channel escalation -/

/-- A dispatcher step taken in global breakdown mode fires no channel
intervention and freezes all per-channel counters and cooldowns. -/
lemma breakdown_step_frozen (task : Task) (d : InferenceData) (now : ℚ)
    (st : OverlayState) (hb : st.inBreakdown = true) :
    firedEvents (runStep task d now st).2 = [] ∧
    (runStep task d now st).1.sigInstab = st.sigInstab ∧
    (runStep task d now st).1.sigDrift = st.sigDrift ∧
    (runStep task d now st).1.sigFatigue = st.sigFatigue ∧
    (runStep task d now st).1.cdInstab = st.cdInstab ∧
    (runStep task d now st).1.cdDrift = st.cdDrift ∧
    (runStep task d now st).1.cdFatigue = st.cdFatigue := by
  by_cases he : d.error = true
  · simp [runStep, he, firedEvents]
  · have he' : d.error = false := by simpa using he
    cases hfire : (handleInferenceResult task d now st).2 <;>
      simp [runStep, breakdownPhase, he', hb, hfire, firedEvents] <;>
      split_ifs <;> simp

/-- C4: while the global breakdown flag is set, a dispatcher step fires
no channel-level intervention at any level, and leaves every
per-channel hysteresis counter and cooldown timestamp unchanged. -/
theorem breakdown_suppresses_channels (task : Task) (d : InferenceData) (now : ℚ)
    (st : OverlayState) (hb : st.inBreakdown = true) :
    firedEvents (runStep task d now st).2 = [] ∧
    (runStep task d now st).1.sigInstab = st.sigInstab ∧
    (runStep task d now st).1.sigDrift = st.sigDrift ∧
    (runStep task d now st).1.sigFatigue = st.sigFatigue ∧
    (runStep task d now st).1.cdInstab = st.cdInstab ∧
    (runStep task d now st).1.cdDrift = st.cdDrift ∧
    (runStep task d now st).1.cdFatigue = st.cdFatigue :=
  breakdown_step_frozen task d now st hb

/-- Witness for C4: a concrete breakdown-mode step with every raw
signal above every floor still fires nothing and touches no counter. -/
theorem breakdown_suppresses_channels_witness :
    firedEvents (runStep Task.coding dAll 5 stBreak).2 = [] ∧
    (runStep Task.coding dAll 5 stBreak).1.sigInstab = stBreak.sigInstab ∧
    (runStep Task.coding dAll 5 stBreak).1.sigDrift = stBreak.sigDrift ∧
    (runStep Task.coding dAll 5 stBreak).1.sigFatigue = stBreak.sigFatigue ∧
    (runStep Task.coding dAll 5 stBreak).1.cdInstab = stBreak.cdInstab ∧
    (runStep Task.coding dAll 5 stBreak).1.cdDrift = stBreak.cdDrift ∧
    (runStep Task.coding dAll 5 stBreak).1.cdFatigue = stBreak.cdFatigue :=
  breakdown_suppresses_channels Task.coding dAll 5 stBreak rfl

/-! ## Red-band breakdown banner -/

/-- C5 (amended): entering the red band from a non-red state with the
banner cooldown expired and no banner currently active triggers the
breakdown banner; and dismissing (or auto-timing-out) the banner
clears the active flag and sets a short 1-second cooldown.  The banner
can then re-fire promptly only if risk leaves the red band and
re-enters it — a subsequent interval on which risk merely REMAINS red
does not re-fire the banner (see
`banner_no_refire_when_red_persists`). -/
theorem banner_entry_and_cooldown :
    (∀ (task : Task) (d : InferenceData) (now : ℚ) (st : OverlayState),
      d.error = false →
      st.currentRiskLevel ≠ RiskLevel.red →
      st.isBreakdownActive = false →
      st.breakdownCooldownUntil < now →
      (redThreshold task ≤ d.risk.getD 0 ∨ d.breakdown_imminent = true) →
      Event.banner ∈ (runStep task d now st).2) ∧
    (∀ (now : ℚ) (st : OverlayState),
      (dismissBanner now st).breakdownCooldownUntil = now + 1000 ∧
      (dismissBanner now st).isBreakdownActive = false) := by
  constructor
  · intro task d now st he hnr hba hcd hred
    have hfire : (handleInferenceResult task d now st).2 = true :=
      (hir_fire_iff task d now st).mpr
        ⟨(riskLevelOf_eq_red task _ _).mpr hred, hnr, hcd, hba⟩
    simp only [runStep, he, Bool.false_eq_true, if_false, hfire, if_true]
    split_ifs <;> simp
  · intro now st
    exact ⟨rfl, rfl⟩

/-- Witness for C5: a concrete red interval from the initial state
fires the banner, and a concrete dismissal sets the 1-second cooldown. -/
theorem banner_entry_and_cooldown_witness :
    Event.banner ∈ (runStep Task.general dHot 5 initialState).2 ∧
    (dismissBanner 6 initialState).breakdownCooldownUntil = 6 + 1000 ∧
    (dismissBanner 6 initialState).isBreakdownActive = false :=
  ⟨banner_entry_and_cooldown.1 Task.general dHot 5 initialState rfl
      (by simp [initialState]) rfl (by norm_num [initialState])
      (by norm_num [dHot, redThreshold]),
   (banner_entry_and_cooldown.2 6 initialState).1,
   (banner_entry_and_cooldown.2 6 initialState).2⟩

/-- C5 counterexample: risk 0.9 stays in the red band throughout.  The
first interval (t = 5000) fires the banner; it is dismissed at
t = 6000, setting the cooldown to 7000; at t = 20000 the cooldown has
long expired and risk is still red, yet NO banner fires, because
re-firing requires entering red from a non-red band
(`justEnteredRed`).  This falsifies the claim that after a dismissal
the banner "can re-fire promptly on a subsequent interval if risk
remains in the red band". -/
theorem banner_no_refire_when_red_persists :
    Event.banner ∈ (runStep Task.general dHot 5000 initialState).2 ∧
    (dismissBanner 6000 (runStep Task.general dHot 5000 initialState).1).breakdownCooldownUntil = 7000 ∧
    (runStep Task.general dHot 20000
      (dismissBanner 6000 (runStep Task.general dHot 5000 initialState).1)).1.currentRiskLevel =
      RiskLevel.red ∧
    Event.banner ∉ (runStep Task.general dHot 20000
      (dismissBanner 6000 (runStep Task.general dHot 5000 initialState).1)).2 := by
  refine ⟨?_, ?_, ?_, ?_⟩
  · norm_num [runStep, handleInferenceResult, riskLevelOf, redThreshold, initialState, dHot,
      channelsPhase, channelFire, getSignalLevel, bumpSig, TASK_THRESHOLDS, TYPE_COOLDOWNS]
    decide
  · norm_num [runStep, handleInferenceResult, riskLevelOf, redThreshold, initialState, dHot,
      dismissBanner, channelsPhase, channelFire, getSignalLevel, bumpSig, TASK_THRESHOLDS,
      TYPE_COOLDOWNS]
  · norm_num [runStep, handleInferenceResult, riskLevelOf, redThreshold, initialState, dHot,
      dismissBanner, channelsPhase, channelFire, getSignalLevel, bumpSig, TASK_THRESHOLDS,
      TYPE_COOLDOWNS]
  · norm_num [runStep, handleInferenceResult, riskLevelOf, redThreshold, initialState, dHot,
      dismissBanner, channelsPhase, channelFire, getSignalLevel, bumpSig, TASK_THRESHOLDS,
      TYPE_COOLDOWNS]

/-! ## Level-3 hysteresis -/

lemma notMem_of_firedEvents_nil (evs : List Event) (h : firedEvents evs = [])
    (ch : Channel) (lv : Nat) : Event.fired ch lv ∉ evs := by
  intro hmem
  have hin : Event.fired ch lv ∈ firedEvents evs := by
    unfold firedEvents
    simp [List.mem_filter, hmem]
  simp [h] at hin

lemma mem_fired_toList (ch ch' : Channel) (k : Nat) (o : Option Nat) :
    Event.fired ch k ∈ (Option.map (Event.fired ch') o).toList ↔
      (ch = ch' ∧ o = some k) := by
  cases o with
  | none => simp
  | some a =>
    constructor
    · intro hmem
      simp at hmem
      obtain ⟨rfl, rfl⟩ := hmem
      exact ⟨rfl, rfl⟩
    · rintro ⟨rfl, hk⟩
      simp at hk
      subst hk
      simp

lemma bumpSig_zero_lt_two (c : Prop) [Decidable c] : bumpSig c 0 < 2 := by
  unfold bumpSig
  split_ifs <;> omega

lemma channelFire_lv3_low (sig : Nat) (cd now len : ℚ) (h : sig < 2) :
    channelFire 3 sig cd now len = ⟨cd, false, none⟩ := by
  unfold channelFire
  rw [if_neg (by simp), if_neg (by simp), if_neg (by rintro ⟨-, h2, -⟩; omega)]

/-- The second component of `channelsPhase`, written out. -/
lemma channelsPhase_events (thr : TaskThresholds) (i dr f now : ℚ) (st : OverlayState) :
    (channelsPhase thr i dr f now st).2 =
      ((channelFire (getSignalLevel i thr.instab) (bumpSig (thr.instab.l1 ≤ i) st.sigInstab)
        st.cdInstab now (TYPE_COOLDOWNS Channel.instab)).fired.map
          (Event.fired Channel.instab)).toList ++
      ((channelFire (getSignalLevel dr thr.drift) (bumpSig (thr.drift.l1 ≤ dr) st.sigDrift)
        st.cdDrift now (TYPE_COOLDOWNS Channel.drift)).fired.map
          (Event.fired Channel.drift)).toList ++
      ((channelFire (getSignalLevel f thr.fatigue) (bumpSig (thr.fatigue.l1 ≤ f) st.sigFatigue)
        st.cdFatigue now (TYPE_COOLDOWNS Channel.fatigue)).fired.map
          (Event.fired Channel.fatigue)).toList := rfl

/-- A channel's level-3 event is among the phase's events exactly when
that channel's ladder returned `some 3`. -/
lemma channelsPhase_mem_fired3 (thr : TaskThresholds) (i dr f now : ℚ)
    (st : OverlayState) (ch : Channel) :
    Event.fired ch 3 ∈ (channelsPhase thr i dr f now st).2 ↔
      (channelFire (getSignalLevel (chanPick ch i dr f) (chanThr thr ch))
        (bumpSig ((chanThr thr ch).l1 ≤ chanPick ch i dr f) (chanSig st ch))
        (chanCd st ch) now (TYPE_COOLDOWNS ch)).fired = some 3 := by
  rw [channelsPhase_events]
  cases ch <;>
    simp [List.mem_append, mem_fired_toList, chanPick, chanSig, chanCd, chanThr]

lemma hir_chanSig (task : Task) (d : InferenceData) (now : ℚ) (st : OverlayState)
    (ch : Channel) :
    chanSig (handleInferenceResult task d now st).1 ch = chanSig st ch := by
  cases ch <;> rfl

lemma hir_chanCd (task : Task) (d : InferenceData) (now : ℚ) (st : OverlayState)
    (ch : Channel) :
    chanCd (handleInferenceResult task d now st).1 ch = chanCd st ch := by
  cases ch <;> rfl

lemma chanSig_initial (ch : Channel) : chanSig initialState ch = 0 := by
  cases ch <;> rfl

lemma chanCd_initial (ch : Channel) : chanCd initialState ch = 0 := by
  cases ch <;> rfl

lemma chanPick_chanVal (d : InferenceData) (ch : Channel) :
    chanPick ch (d.instability.getD 0) (d.drift.getD 0) (d.fatigue.getD 0) = chanVal d ch := by
  cases ch <;> rfl

lemma channelsPhase_chanSig (thr : TaskThresholds) (i dr f now : ℚ) (st : OverlayState)
    (ch : Channel) :
    chanSig (channelsPhase thr i dr f now st).1 ch =
      bumpSig ((chanThr thr ch).l1 ≤ chanPick ch i dr f) (chanSig st ch) := by
  cases ch <;> rfl

lemma channelsPhase_chanCd (thr : TaskThresholds) (i dr f now : ℚ) (st : OverlayState)
    (ch : Channel) :
    chanCd (channelsPhase thr i dr f now st).1 ch =
      (channelFire (getSignalLevel (chanPick ch i dr f) (chanThr thr ch))
        (bumpSig ((chanThr thr ch).l1 ≤ chanPick ch i dr f) (chanSig st ch))
        (chanCd st ch) now (TYPE_COOLDOWNS ch)).cd := by
  cases ch <;> rfl

lemma channelsPhase_inBreakdown (thr : TaskThresholds) (i dr f now : ℚ)
    (st : OverlayState) :
    (channelsPhase thr i dr f now st).1.inBreakdown =
      ((channelFire (getSignalLevel i thr.instab) (bumpSig (thr.instab.l1 ≤ i) st.sigInstab)
        st.cdInstab now (TYPE_COOLDOWNS Channel.instab)).setBreakdown ||
       (channelFire (getSignalLevel dr thr.drift) (bumpSig (thr.drift.l1 ≤ dr) st.sigDrift)
        st.cdDrift now (TYPE_COOLDOWNS Channel.drift)).setBreakdown ||
       (channelFire (getSignalLevel f thr.fatigue) (bumpSig (thr.fatigue.l1 ≤ f) st.sigFatigue)
        st.cdFatigue now (TYPE_COOLDOWNS Channel.fatigue)).setBreakdown) := rfl

/-- Events of a non-breakdown, non-error dispatcher step: the optional
banner followed by the channel-phase events. -/
lemma runStep_events_eq (task : Task) (d : InferenceData) (now : ℚ) (st : OverlayState)
    (he : d.error = false) (hb : st.inBreakdown = false) :
    (runStep task d now st).2 =
      (if (handleInferenceResult task d now st).2 = true then [Event.banner] else []) ++
      (channelsPhase (TASK_THRESHOLDS task) (d.instability.getD 0) (d.drift.getD 0)
        (d.fatigue.getD 0) now (handleInferenceResult task d now st).1).2 := by
  simp [runStep, he, hb]

/-- State of a non-breakdown, non-error dispatcher step. -/
lemma runStep_state_eq (task : Task) (d : InferenceData) (now : ℚ) (st : OverlayState)
    (he : d.error = false) (hb : st.inBreakdown = false) :
    (runStep task d now st).1 =
      (channelsPhase (TASK_THRESHOLDS task) (d.instability.getD 0) (d.drift.getD 0)
        (d.fatigue.getD 0) now (handleInferenceResult task d now st).1).1 := by
  simp [runStep, he, hb]

/-- A step whose incoming hysteresis counter for a channel is 0 can
never fire that channel's level-3 intervention (the updated counter is
at most 1 < 2). -/
lemma step_no3_of_sig0 (task : Task) (d : InferenceData) (now : ℚ) (st : OverlayState)
    (ch : Channel) (h0 : chanSig st ch = 0) :
    Event.fired ch 3 ∉ (runStep task d now st).2 := by
  by_cases he : d.error = true
  · simp [runStep, he]
  · have he' : d.error = false := by simpa using he
    by_cases hb : st.inBreakdown = true
    · exact notMem_of_firedEvents_nil _ (breakdown_step_frozen task d now st hb).1 _ _
    · have hb' : st.inBreakdown = false := by simpa using hb
      rw [runStep_events_eq task d now st he' hb']
      simp only [List.mem_append, not_or]
      refine ⟨by split_ifs <;> simp, ?_⟩
      rw [channelsPhase_mem_fired3, chanPick_chanVal, hir_chanSig, h0]
      exact (channelFire_no3 _ _ _ _ _ (bumpSig_zero_lt_two _)).1

/-- A step whose raw value on a channel is below the level-1 floor
emits no intervention on that channel at all (its level is 0). -/
lemma step_no3_of_low (task : Task) (d : InferenceData) (now : ℚ) (st : OverlayState)
    (ch : Channel) (h : chanVal d ch < (chanThr (TASK_THRESHOLDS task) ch).l1) :
    Event.fired ch 3 ∉ (runStep task d now st).2 := by
  by_cases he : d.error = true
  · simp [runStep, he]
  · have he' : d.error = false := by simpa using he
    by_cases hb : st.inBreakdown = true
    · exact notMem_of_firedEvents_nil _ (breakdown_step_frozen task d now st hb).1 _ _
    · have hb' : st.inBreakdown = false := by simpa using hb
      rw [runStep_events_eq task d now st he' hb']
      simp only [List.mem_append, not_or]
      refine ⟨by split_ifs <;> simp, ?_⟩
      rw [channelsPhase_mem_fired3, chanPick_chanVal]
      have hasc := floors_ascending task ch
      rw [getSignalLevel_lt_l1 _ _ h hasc.1 hasc.2, channelFire_lv0]
      simp

/-- Over any run of intervals whose raw values on a channel all stay
below its level-1 floor, that channel's level-3 intervention never
fires. -/
lemma runAll_no3_of_low (task : Task) (ch : Channel) (lows : List (InferenceData × ℚ)) :
    ∀ st : OverlayState,
      (∀ p ∈ lows, chanVal p.1 ch < (chanThr (TASK_THRESHOLDS task) ch).l1) →
      Event.fired ch 3 ∉ (runAll task lows st).2 := by
  induction lows with
  | nil =>
    intro st _
    simp [runAll]
  | cons p rest ih =>
    intro st h
    obtain ⟨d, t⟩ := p
    simp only [runAll, List.mem_append, not_or]
    exact ⟨step_no3_of_low task d t st ch (h (d, t) (by simp)),
      ih _ (fun q hq => h q (by simp [hq]))⟩

/-- After one non-error interval whose value on a channel reaches its
level-3 floor, taken from the initial state: that channel's counter is
1, its cooldown timestamp is untouched (still 0) and global breakdown
mode is off (no channel can reach a counter of 2 on one interval). -/
lemma first_spike_state (task : Task) (d : InferenceData) (t : ℚ) (ch : Channel)
    (he : d.error = false)
    (hi : (chanThr (TASK_THRESHOLDS task) ch).l3 ≤ chanVal d ch) :
    chanSig (runStep task d t initialState).1 ch = 1 ∧
    chanCd (runStep task d t initialState).1 ch = 0 ∧
    (runStep task d t initialState).1.inBreakdown = false := by
  have hasc := floors_ascending task ch
  have hl1 : (chanThr (TASK_THRESHOLDS task) ch).l1 ≤ chanVal d ch := by
    linarith [hasc.1, hasc.2]
  have hlv := getSignalLevel_ge_l3 (chanVal d ch) (chanThr (TASK_THRESHOLDS task) ch) hi
  have hb0 : initialState.inBreakdown = false := rfl
  rw [runStep_state_eq task d t initialState he hb0]
  have hbump : bumpSig ((chanThr (TASK_THRESHOLDS task) ch).l1 ≤ chanVal d ch)
      (chanSig (handleInferenceResult task d t initialState).1 ch) = 1 := by
    rw [hir_chanSig, chanSig_initial]
    unfold bumpSig
    rw [if_pos hl1]
  refine ⟨?_, ?_, ?_⟩
  · rw [channelsPhase_chanSig, chanPick_chanVal]
    exact hbump
  · rw [channelsPhase_chanCd, chanPick_chanVal, hlv, hbump, hir_chanCd, chanCd_initial]
    rw [channelFire_lv3_low 1 _ _ _ (by omega)]
  · rw [channelsPhase_inBreakdown]
    rw [(channelFire_no3 _ _ _ _ _ (by rw [hir_sigInstab]; exact bumpSig_zero_lt_two _)).2,
      (channelFire_no3 _ _ _ _ _ (by rw [hir_sigDrift]; exact bumpSig_zero_lt_two _)).2,
      (channelFire_no3 _ _ _ _ _ (by rw [hir_sigFatigue]; exact bumpSig_zero_lt_two _)).2]
    rfl

/-- C2: for every channel, starting from the initial dispatcher state:
(a) a single interval whose value on that channel is at or above its
level-3 floor, followed only by intervals whose values on that channel
are below its level-1 floor, never fires the channel's level-3
intervention — the hysteresis counter never reaches 2; (b) two
consecutive intervals at or above the level-3 floor DO fire it, given
the channel's cooldown has expired (the initial cooldown timestamp is
0, so any positive time for the second interval). -/
theorem dispatcher_level3_hysteresis (task : Task) (ch : Channel) :
    (∀ (spike : InferenceData) (t0 : ℚ) (lows : List (InferenceData × ℚ)),
      (chanThr (TASK_THRESHOLDS task) ch).l3 ≤ chanVal spike ch →
      (∀ p ∈ lows, chanVal p.1 ch < (chanThr (TASK_THRESHOLDS task) ch).l1) →
      Event.fired ch 3 ∉ (runAll task ((spike, t0) :: lows) initialState).2) ∧
    (∀ (d1 d2 : InferenceData) (t1 t2 : ℚ),
      d1.error = false → d2.error = false →
      (chanThr (TASK_THRESHOLDS task) ch).l3 ≤ chanVal d1 ch →
      (chanThr (TASK_THRESHOLDS task) ch).l3 ≤ chanVal d2 ch →
      0 < t2 →
      Event.fired ch 3 ∈ (runAll task [(d1, t1), (d2, t2)] initialState).2) := by
  constructor
  · intro spike t0 lows _ hlow
    simp only [runAll, List.mem_append, not_or]
    exact ⟨step_no3_of_sig0 task spike t0 initialState ch (chanSig_initial ch),
      runAll_no3_of_low task ch lows _ hlow⟩
  · intro d1 d2 t1 t2 he1 he2 hi1 hi2 ht2
    have hspike := first_spike_state task d1 t1 ch he1 hi1
    have hasc := floors_ascending task ch
    have hl1 : (chanThr (TASK_THRESHOLDS task) ch).l1 ≤ chanVal d2 ch := by
      linarith [hasc.1, hasc.2]
    have hlv := getSignalLevel_ge_l3 (chanVal d2 ch) (chanThr (TASK_THRESHOLDS task) ch) hi2
    simp only [runAll, List.mem_append]
    right
    left
    rw [runStep_events_eq task d2 t2 _ he2 hspike.2.2]
    apply List.mem_append_right
    rw [channelsPhase_mem_fired3, chanPick_chanVal, hir_chanSig, hspike.1, hir_chanCd,
      hspike.2.1, hlv]
    have hbump2 : bumpSig ((chanThr (TASK_THRESHOLDS task) ch).l1 ≤ chanVal d2 ch) 1 = 2 := by
      unfold bumpSig
      rw [if_pos hl1]
    rw [hbump2, channelFire_fires3 2 0 t2 _ (by omega) ht2]

/-- Witness for C2: under the coding task on the instability channel, a
spike followed by one low interval fires no level-3 intervention; two
consecutive spikes fire it. -/
theorem dispatcher_level3_hysteresis_witness :
    Event.fired Channel.instab 3 ∉ (runAll Task.coding [(dSpike, 1), (dLow, 2)] initialState).2 ∧
    Event.fired Channel.instab 3 ∈ (runAll Task.coding [(dSpike, 1), (dSpike, 2)] initialState).2 :=
  ⟨(dispatcher_level3_hysteresis Task.coding Channel.instab).1 dSpike 1 [(dLow, 2)]
      (by norm_num [dSpike, chanVal, chanThr, TASK_THRESHOLDS])
      (by
        intro p hp
        simp at hp
        subst hp
        norm_num [dLow, chanVal, chanThr, TASK_THRESHOLDS]),
   (dispatcher_level3_hysteresis Task.coding Channel.instab).2 dSpike dSpike 1 2 rfl rfl
      (by norm_num [dSpike, chanVal, chanThr, TASK_THRESHOLDS])
      (by norm_num [dSpike, chanVal, chanThr, TASK_THRESHOLDS])
      (by norm_num)⟩


end CortexFlow
